import Mathlib

/-!
Verification of the core behaviour of `monitor_switcher.py`: the KM-switch
detector state machine (`KMSwitchDetector._monitor_loop`), the input-device
presence sampler (`KMSwitchDetector._count_input_devices`), the monitor
controller (`MonitorController._init_monitor` / `switch_input`) and the
application callback (`MonitorSwitcherApp._on_km_switch`).

The Python code is shallowly embedded: Python exceptions become `Except Unit`
values, OS calls and the `monitorcontrol` library become explicit environment
arguments, and the mutable attributes of each class become explicit state
records threaded through the functions.
-/

namespace MonitorSwitcher

/-- The two machines the detector distinguishes: the strings `"home"` and
`"work"` of the Python source. -/
inductive Machine where
  | home
  | work
deriving DecidableEq, Repr

/-- Mutable state of `KMSwitchDetector`: the attributes `last_device_count`
and `last_state` (initialised to `0` and `"home"` in `__init__`). -/
structure DetectorState where
  last_device_count : Nat
  last_state : Machine
deriving DecidableEq, Repr

/-- One iteration of the body of `KMSwitchDetector._monitor_loop`
(lines 181–197): given the freshly sampled `current_count`, compute the new
detector state and the event passed to `self.callback` (if any).
Mirrors the source: the transition is evaluated only when
`abs(current_count - last_device_count) >= 1`; the candidate state is
`"home"` when the count increased and `"work"` otherwise; the callback fires
only when the candidate differs from `last_state`; and `last_device_count`
is updated at the end of that branch. -/
def detectorTick (s : DetectorState) (current_count : Nat) :
    DetectorState × Option Machine :=
  if ((current_count : Int) - (s.last_device_count : Int)).natAbs ≥ 1 then
    let new_state :=
      if current_count > s.last_device_count then Machine.home else Machine.work
    if new_state ≠ s.last_state then
      ({ last_device_count := current_count, last_state := new_state },
       some new_state)
    else
      ({ last_device_count := current_count, last_state := s.last_state }, none)
  else
    (s, none)

/-- Running `detectorTick` over a list of sampled counts, collecting the
emitted events in order. -/
def detectorRun (s : DetectorState) : List Nat → DetectorState × List Machine
  | [] => (s, [])
  | c :: rest =>
    let t := detectorTick s c
    let r := detectorRun t.1 rest
    (r.1, t.2.toList ++ r.2)

/-- `KMSwitchDetector._monitor_loop` on a finite run of samples: the first
sample initialises `last_device_count` (line 177) and the remaining samples
drive the loop body. `init_state` is the detector's `last_state` at start
(`"home"` by default, line 158). -/
def monitorLoopRun (init_state : Machine) : List Nat → DetectorState × List Machine
  | [] => ({ last_device_count := 0, last_state := init_state }, [])
  | first :: rest =>
    detectorRun { last_device_count := first, last_state := init_state } rest

/-- Observable outcome of one iteration of the `try/except` body of
`_monitor_loop` (lines 180–203): the detector state afterwards, the event
the callback was invoked with (if it got invoked), whether an exception
escaped the `try` body, and the sleep in seconds that follows (5.0 in the
`except` branch, line 203; 2.0 otherwise, line 199). -/
structure TickResult where
  state : DetectorState
  event : Option Machine
  failed : Bool
  sleep : Nat
deriving DecidableEq, Repr

/-- One iteration of `_monitor_loop` including its `try/except` wrapper.
Inside the `try` body the only call that can realistically raise is
`self.callback(new_state)` at line 195: `_count_input_devices` catches its
own failures (see `count_input_devices`) and the logger/sleep calls do not
raise. `cbRaises` says whether the callback raises when invoked on this
tick. When it does, line 194 has already assigned `last_state = new_state`
and line 197 (`last_device_count = current_count`) is skipped, so the
failing tick keeps the stale device count while the tracked state and the
delivered event have already changed; the `except` branch then logs and
sleeps 5.0 instead of the default 2.0. -/
def loopTick (s : DetectorState) (c : Nat) (cbRaises : Bool) : TickResult :=
  if ((c : Int) - (s.last_device_count : Int)).natAbs ≥ 1 then
    if (if c > s.last_device_count then Machine.home else Machine.work)
        ≠ s.last_state then
      if cbRaises then
        ⟨⟨s.last_device_count,
          if c > s.last_device_count then Machine.home else Machine.work⟩,
         some (if c > s.last_device_count then Machine.home else Machine.work),
         true, 5⟩
      else
        ⟨⟨c, if c > s.last_device_count then Machine.home else Machine.work⟩,
         some (if c > s.last_device_count then Machine.home else Machine.work),
         false, 2⟩
    else
      ⟨⟨c, s.last_state⟩, none, false, 2⟩
  else
    ⟨s, none, false, 2⟩

/-- Accumulated observables of a run of `_monitor_loop`: final detector
state, the events delivered to the callback, one failure flag per tick, and
one sleep per tick. -/
structure LoopResult where
  state : DetectorState
  events : List Machine
  failures : List Bool
  sleeps : List Nat
deriving DecidableEq, Repr

/-- `_monitor_loop` over a finite list of ticks, each given by the sampled
count and whether the callback raises on that tick. The loop never exits on
an exception: after every tick, failed or not, it continues with the
remaining ticks from the post-tick state. -/
def loopRun (s : DetectorState) : List (Nat × Bool) → LoopResult
  | [] => ⟨s, [], [], []⟩
  | (c, f) :: rest =>
    let t := loopTick s c f
    let r := loopRun t.state rest
    ⟨r.state, t.event.toList ++ r.events, t.failed :: r.failures,
     t.sleep :: r.sleeps⟩

/-- The back-off policy exactly as the spec words it (formalised from the
spec, for comparison with `loopRun`): a sleep of 5 seconds happens after a
tick only when that tick and the two before it all failed. -/
def widenOnlyAfterThreeFailures : Prop :=
  ∀ (s : DetectorState) (ticks : List (Nat × Bool)) (i : Nat),
    (loopRun s ticks).sleeps.getD i 2 = 5 →
    2 ≤ i ∧ (loopRun s ticks).failures.getD i false = true ∧
      (loopRun s ticks).failures.getD (i - 1) false = true ∧
      (loopRun s ticks).failures.getD (i - 2) false = true

/-- Outcomes of the two fallible OS queries inside
`KMSwitchDetector._count_input_devices`: the `GetSystemMetrics(SM_CMOUSEBUTTONS)`
call (returning the mouse-button count or raising) and the block of three
`GetKeyState` calls (raising as soon as one of them raises). -/
structure OsEnv where
  mouseButtons : Except Unit Nat
  keyState : Except Unit Unit

/-- `KMSwitchDetector._count_input_devices` (lines 205–227): the result is
`Except.ok` of the returned score — the call never propagates an exception.
The outer `try/except` converts a failing `GetSystemMetrics` into the score
`0`; the inner bare `except: pass` swallows a failing `GetKeyState` block,
so the keyboard bonus of `2` is simply skipped and the mouse-button count is
returned as is. -/
def count_input_devices (env : OsEnv) : Except Unit Nat :=
  match env.mouseButtons with
  | Except.error _ => Except.ok 0
  | Except.ok m =>
    match env.keyState with
    | Except.ok _ => Except.ok (m + 2)
    | Except.error _ => Except.ok m

/-- The sampler failure contract exactly as the spec words it (formalised
from the spec, for comparison with `count_input_devices`): whenever any of
the OS queries fails, the returned score is `0`. -/
def samplerReturnsZeroOnFailure : Prop :=
  ∀ env : OsEnv,
    (env.mouseButtons.isOk = false ∨ env.keyState.isOk = false) →
    count_input_devices env = Except.ok 0

/-- The `monitorcontrol` input-source identifiers used by
`MonitorController.INPUT_SOURCES` (the raw VCP code `0x01` for VGA is one
more distinct identifier). -/
inductive InputSource where
  | HDMI1
  | HDMI2
  | DP1
  | DP2
  | DVI1
  | DVI2
  | VGA1
deriving DecidableEq, Repr

/-- `MonitorController.INPUT_SOURCES`: the dict mapping configured input
names to `monitorcontrol` identifiers (lines 80–88). -/
def INPUT_SOURCES : List (String × InputSource) :=
  [("HDMI-1", InputSource.HDMI1), ("HDMI-2", InputSource.HDMI2),
   ("DisplayPort-1", InputSource.DP1), ("DisplayPort-2", InputSource.DP2),
   ("DVI-1", InputSource.DVI1), ("DVI-2", InputSource.DVI2),
   ("VGA-1", InputSource.VGA1)]

/-- How one `set_input_source` call on a monitor handle ends: success, a
raised `VCPError`, or any other raised exception. -/
inductive SetOutcome where
  | ok
  | vcpError
  | genericError
deriving DecidableEq, Repr

/-- A live monitor handle from the `monitorcontrol` library, reduced to the
behaviour of its `set_input_source` method. -/
structure Monitor where
  set_input_source : InputSource → SetOutcome

/-- Mutable state of `MonitorController`: the attributes `monitor_index` and
`monitor` (the latter `None` when no handle is live). -/
structure ControllerState where
  monitor_index : Nat
  monitor : Option Monitor

/-- `MonitorController._init_monitor` (lines 95–105): `get_monitors()` either
raises (caught and logged, state unchanged) or returns a list; the handle is
taken at `monitor_index` when the list is non-empty and long enough,
otherwise only a warning is logged and the state is unchanged. -/
def init_monitor (get_monitors : Except Unit (List Monitor))
    (s : ControllerState) : ControllerState :=
  match get_monitors with
  | Except.error _ => s
  | Except.ok monitors =>
    if monitors.isEmpty = false ∧ monitors.length > s.monitor_index then
      { s with monitor := monitors[s.monitor_index]? }
    else
      s

/-- Result of one `MonitorController.switch_input` call: the returned
boolean, the `set_input_source` command issued (if the call got that far),
how many `_init_monitor` reconnect attempts were made, and the controller
state afterwards. -/
structure SwitchResult where
  success : Bool
  issued : Option InputSource
  reconnect_attempts : Nat
  state : ControllerState

/-- `MonitorController.switch_input` (lines 107–130): with no live handle,
one `_init_monitor` reconnect is attempted and failure returns `False`; an
input name outside `INPUT_SOURCES` returns `False`; otherwise the command is
issued and a raised `VCPError` or generic exception is converted into
`False`, success into `True`. -/
def switch_input (get_monitors : Except Unit (List Monitor))
    (s : ControllerState) (input_name : String) : SwitchResult :=
  let p : ControllerState × Nat :=
    if s.monitor.isNone then (init_monitor get_monitors s, 1) else (s, 0)
  let outcome : Bool × Option InputSource :=
    match p.1.monitor with
    | none => (false, none)
    | some mon =>
      match INPUT_SOURCES.lookup input_name with
      | none => (false, none)
      | some src =>
        match mon.set_input_source src with
        | SetOutcome.ok => (true, some src)
        | SetOutcome.vcpError => (false, some src)
        | SetOutcome.genericError => (false, some src)
  ⟨outcome.1, outcome.2, p.2, p.1⟩

/-- The application's configuration dictionary `Config.data`, restricted to
its string-valued entries; `lookup` finds the current binding of a key. -/
structure Config where
  data : List (String × String)
deriving DecidableEq, Repr

/-- `Config.get` (lines 66–68): `self.data.get(key, default)`. -/
def Config.get (c : Config) (key dflt : String) : String :=
  match c.data.lookup key with
  | some v => v
  | none => dflt

/-- `Config.set` (lines 70–73): `self.data[key] = value` (then a save to
disk, which does not change the in-memory data). -/
def Config.set (c : Config) (key value : String) : Config :=
  { data := (key, value) :: c.data.filter (fun p => p.1 != key) }

/-- The strings `"home"` / `"work"` the detector callback passes around. -/
def Machine.toStr : Machine → String
  | Machine.home => "home"
  | Machine.work => "work"

/-- State of `MonitorSwitcherApp` relevant to `_on_km_switch`: its config
and its monitor controller. -/
structure AppState where
  config : Config
  controller : ControllerState

/-- The input name `_on_km_switch` resolves from the configuration
(lines 349–352). -/
def resolvedInputName (cfg : Config) (machine : Machine) : String :=
  if machine = Machine.home then cfg.get "home_machine_input" "HDMI-1"
  else cfg.get "work_laptop_input" "HDMI-2"

/-- `MonitorSwitcherApp._on_km_switch` (lines 344–369): resolve the input
name, attempt the switch, and persist `last_active_machine` only when the
switch succeeded. Returns the new app state, the success flag, and the
resolved input name (used in the notification text). -/
def on_km_switch (get_monitors : Except Unit (List Monitor))
    (app : AppState) (machine : Machine) : AppState × Bool × String :=
  let input_name := resolvedInputName app.config machine
  let r := switch_input get_monitors app.controller input_name
  if r.success then
    ({ config := app.config.set "last_active_machine" machine.toStr,
       controller := r.state }, true, input_name)
  else
    ({ config := app.config, controller := r.state }, false, input_name)

/-- A monitor handle that accepts every set-input command (a healthy
control collaborator). -/
def okMonitor : Monitor :=
  ⟨fun _ => SetOutcome.ok⟩

/-- A monitor handle that raises `VCPError` on every set-input command. -/
def vcpMonitor : Monitor :=
  ⟨fun _ => SetOutcome.vcpError⟩

end MonitorSwitcher

namespace MonitorSwitcher

/-- Helper: every tick either emits nothing and keeps the tracked state, or
emits exactly the machine the tracked state moves to, which differs from the
previous tracked state. -/
theorem detectorTick_cases (s : DetectorState) (c : Nat) :
    ((detectorTick s c).2 = none ∧ (detectorTick s c).1.last_state = s.last_state) ∨
    ∃ m, (detectorTick s c).2 = some m ∧ m ≠ s.last_state ∧
      (detectorTick s c).1.last_state = m := by
  unfold detectorTick
  by_cases h : ((c : Int) - (s.last_device_count : Int)).natAbs ≥ 1
  · rw [if_pos h]
    by_cases hc : (if c > s.last_device_count then Machine.home else Machine.work)
        ≠ s.last_state
    · rw [if_pos hc]
      exact Or.inr ⟨_, rfl, hc, rfl⟩
    · rw [if_neg hc]
      exact Or.inl ⟨rfl, rfl⟩
  · rw [if_neg h]
    exact Or.inl ⟨rfl, rfl⟩

/-- Helper: the tracked state prefixed to the event stream is a chain of
pairwise-distinct neighbours. -/
theorem detectorRun_chain (s : DetectorState) (scores : List Nat) :
    List.Chain' (fun a b => a ≠ b) (s.last_state :: (detectorRun s scores).2) := by
  induction scores generalizing s with
  | nil => simp [detectorRun]
  | cons c rest ih =>
    rcases detectorTick_cases s c with ⟨hnone, hstate⟩ | ⟨m, hsome, hne, hstate⟩
    · have hev : (detectorRun s (c :: rest)).2 =
          (detectorRun (detectorTick s c).1 rest).2 := by
        simp [detectorRun, hnone]
      rw [hev]
      have h2 := ih (detectorTick s c).1
      rwa [hstate] at h2
    · have hev : (detectorRun s (c :: rest)).2 =
          m :: (detectorRun (detectorTick s c).1 rest).2 := by
        simp [detectorRun, hsome]
      rw [hev]
      have h2 := ih (detectorTick s c).1
      rw [hstate] at h2
      exact List.chain'_cons.mpr ⟨Ne.symm hne, h2⟩

/-- C1: On a poll tick with `delta = currentScore - lastScore`: when
`|delta| ≥ 1` the candidate state is `Home` if the score increased and
`Work` otherwise, and the tick emits `MachineActivated(candidate)` iff the
candidate differs from the tracked state; when `delta = 0` the tick leaves
the state unchanged and emits nothing. -/
theorem detectorTick_transition_rule (s : DetectorState) (c : Nat) :
    (((c : Int) - (s.last_device_count : Int)).natAbs ≥ 1 →
      (detectorTick s c).2 =
        (if (if c > s.last_device_count then Machine.home else Machine.work)
            ≠ s.last_state
         then some (if c > s.last_device_count then Machine.home else Machine.work)
         else none)) ∧
    ((c : Int) - (s.last_device_count : Int) = 0 →
      detectorTick s c = (s, none)) := by
  constructor
  · intro h
    unfold detectorTick
    rw [if_pos h]
    by_cases hc : (if c > s.last_device_count then Machine.home else Machine.work)
        ≠ s.last_state
    · simp only [if_pos hc]
    · simp only [if_neg hc]
  · intro h
    unfold detectorTick
    rw [if_neg]
    simp [h]

/-- Witness for C1 at a concrete tick: from state `(5, Home)` and score `4`,
`delta = -1`, the candidate is `Work ≠ Home`, so the event `Work` is
emitted. -/
theorem detectorTick_transition_rule_witness :
    (detectorTick ⟨5, Machine.home⟩ 4).2 =
      (if (if 4 > 5 then Machine.home else Machine.work) ≠ Machine.home
       then some (if 4 > 5 then Machine.home else Machine.work)
       else none) :=
  (detectorTick_transition_rule ⟨5, Machine.home⟩ 4).1 (by decide)

/-- C9: After every poll tick, the tracked `last_device_count` equals the
score of that tick, whether or not a transition fired (when `delta = 0` the
two were already equal). -/
theorem detectorTick_lastScore (s : DetectorState) (c : Nat) :
    (detectorTick s c).1.last_device_count = c := by
  unfold detectorTick
  by_cases h : ((c : Int) - (s.last_device_count : Int)).natAbs ≥ 1
  · rw [if_pos h]
    by_cases hc : (if c > s.last_device_count then Machine.home else Machine.work)
        ≠ s.last_state
    · simp only [if_pos hc]
    · simp only [if_neg hc]
  · rw [if_neg h]
    have : ((c : Int) - (s.last_device_count : Int)).natAbs = 0 := by omega
    have hz : (c : Int) - (s.last_device_count : Int) = 0 := by
      omega
    have : (c : Int) = (s.last_device_count : Int) := by omega
    have : c = s.last_device_count := by exact_mod_cast this
    simp [this]

/-- C3: The concrete scenarios of the spec, starting from the stated initial
state with the first sample initialising the score: `[5,5,5]` emits nothing;
`[5,4]` from `Home` emits exactly `[Work]`; `[4,5]` from `Work` emits exactly
`[Home]`; `[5,4,4,5]` from `Home` emits `[Work, Home]` with nothing on the
repeated `4`; `[5,4,3]` from `Home` emits `Work` once and the second decrease
neither re-emits nor flips the state away from `Work`. -/
theorem detector_scenarios :
    (monitorLoopRun Machine.home [5, 5, 5]).2 = [] ∧
    (monitorLoopRun Machine.home [5, 4]).2 = [Machine.work] ∧
    (monitorLoopRun Machine.work [4, 5]).2 = [Machine.home] ∧
    (monitorLoopRun Machine.home [5, 4, 4, 5]).2 = [Machine.work, Machine.home] ∧
    (monitorLoopRun Machine.home [5, 4, 3]).2 = [Machine.work] ∧
    (monitorLoopRun Machine.home [5, 4, 3]).1.last_state = Machine.work := by
  decide

/-- C2: An event is emitted only when the candidate differs from the tracked
state; a tick whose score equals the tracked score emits nothing; and over
any run, the initial tracked state followed by the emitted events has no two
equal neighbours (so no two consecutive events name the same machine). -/
theorem detector_emission_invariant (s : DetectorState) (scores : List Nat) :
    (∀ (t : DetectorState) (c : Nat) (m : Machine),
      (detectorTick t c).2 = some m → m ≠ t.last_state) ∧
    (∀ t : DetectorState, (detectorTick t t.last_device_count).2 = none) ∧
    List.Chain' (fun a b => a ≠ b) (s.last_state :: (detectorRun s scores).2) := by
  refine ⟨?_, ?_, detectorRun_chain s scores⟩
  · intro t c m h
    rcases detectorTick_cases t c with ⟨hnone, _⟩ | ⟨m2, hsome, hne, _⟩
    · rw [hnone] at h
      cases h
    · rw [hsome] at h
      cases h
      exact hne
  · intro t
    unfold detectorTick
    rw [if_neg]
    simp

/-- Witness for C2 at a concrete tick: from `(5, Home)` and score `4` the
event `Work` is emitted, and the theorem yields `Work ≠ Home`. -/
theorem detector_emission_invariant_witness :
    (detectorTick ⟨5, Machine.home⟩ 4).2 = some Machine.work ∧
      Machine.work ≠ Machine.home :=
  ⟨by decide,
   (detector_emission_invariant ⟨5, Machine.home⟩ []).1 ⟨5, Machine.home⟩ 4
     Machine.work (by decide)⟩

/-- Helper: the sleep after a tick is 5 exactly when the tick failed, and
the default 2 otherwise. -/
theorem loopTick_sleep (t : DetectorState) (c : Nat) (f : Bool) :
    (loopTick t c f).sleep = if (loopTick t c f).failed = true then 5 else 2 := by
  unfold loopTick
  by_cases h1 : ((c : Int) - (t.last_device_count : Int)).natAbs ≥ 1
  · rw [if_pos h1]
    by_cases h2 : (if c > t.last_device_count then Machine.home else Machine.work)
        ≠ t.last_state
    · rw [if_pos h2]
      cases f
      · rfl
      · rfl
    · rw [if_neg h2]
      rfl
  · rw [if_neg h1]
    rfl

/-- Helper: a tick whose callback does not raise is exactly a step of the
detector state machine. -/
theorem loopTick_success (t : DetectorState) (c : Nat) :
    (loopTick t c false).state = (detectorTick t c).1 ∧
    (loopTick t c false).event = (detectorTick t c).2 := by
  unfold loopTick detectorTick
  by_cases h1 : ((c : Int) - (t.last_device_count : Int)).natAbs ≥ 1
  · rw [if_pos h1, if_pos h1]
    by_cases h2 : (if c > t.last_device_count then Machine.home else Machine.work)
        ≠ t.last_state
    · rw [if_pos h2, if_pos h2]
      exact ⟨rfl, rfl⟩
    · rw [if_neg h2, if_neg h2]
      exact ⟨rfl, rfl⟩
  · rw [if_neg h1, if_neg h1]
    exact ⟨rfl, rfl⟩

/-- Helper: a failing tick raised from the callback, so the event was
already delivered and equals the already-updated tracked state, while the
device count was left stale (line 197 skipped). -/
theorem loopTick_failure (t : DetectorState) (c : Nat)
    (hf : (loopTick t c true).failed = true) :
    (loopTick t c true).state.last_device_count = t.last_device_count ∧
    (loopTick t c true).event = some ((loopTick t c true).state.last_state) := by
  unfold loopTick at hf ⊢
  by_cases h1 : ((c : Int) - (t.last_device_count : Int)).natAbs ≥ 1
  · rw [if_pos h1] at hf ⊢
    by_cases h2 : (if c > t.last_device_count then Machine.home else Machine.work)
        ≠ t.last_state
    · rw [if_pos h2] at hf ⊢
      exact ⟨rfl, rfl⟩
    · rw [if_neg h2] at hf
      exact absurd hf (by simp)
  · rw [if_neg h1] at hf
    exact absurd hf (by simp)

/-- C4 counterexample: the loop does not wait for three consecutive
failures; already the very first failing tick (here one emitting tick whose
callback raises) widens the sleep to 5 seconds. -/
theorem loop_backoff_counterexample : ¬ widenOnlyAfterThreeFailures := by
  intro h
  have h0 := h ⟨5, Machine.home⟩ [(4, true)] 0 (by decide)
  exact absurd h0.1 (by decide)

/-- C4 (amended): the loop processes every tick (it never terminates on an
error); the sleep after a tick is 5 seconds exactly when that tick failed —
after each single failure, not only after three consecutive ones — and the
default 2 seconds after every successful tick; a tick whose callback does
not raise is exactly one detector step; and a failing tick, whose exception
escapes the callback, has already delivered its event and updated the
tracked state to it, while leaving the device count stale. -/
theorem loop_error_backoff (s : DetectorState) (ticks : List (Nat × Bool)) :
    (loopRun s ticks).sleeps.length = ticks.length ∧
    (loopRun s ticks).failures.length = ticks.length ∧
    (loopRun s ticks).sleeps =
      (loopRun s ticks).failures.map (fun f => if f then 5 else 2) ∧
    (∀ (t : DetectorState) (c : Nat),
      (loopTick t c false).state = (detectorTick t c).1 ∧
      (loopTick t c false).event = (detectorTick t c).2) ∧
    (∀ (t : DetectorState) (c : Nat),
      (loopTick t c true).failed = true →
      (loopTick t c true).state.last_device_count = t.last_device_count ∧
      (loopTick t c true).event = some ((loopTick t c true).state.last_state)) := by
  refine ⟨?_, ?_, ?_, loopTick_success, loopTick_failure⟩
  · induction ticks generalizing s with
    | nil => rfl
    | cons p rest ih =>
      obtain ⟨c, f⟩ := p
      simp [loopRun, ih (loopTick s c f).state]
  · induction ticks generalizing s with
    | nil => rfl
    | cons p rest ih =>
      obtain ⟨c, f⟩ := p
      simp [loopRun, ih (loopTick s c f).state]
  · induction ticks generalizing s with
    | nil => rfl
    | cons p rest ih =>
      obtain ⟨c, f⟩ := p
      simp [loopRun, ih (loopTick s c f).state, loopTick_sleep]

/-- Witness for C4 (amended): the tick from `(5, Home)` on score `4` with a
raising callback has already moved the tracked state to `Work` and delivered
that event, while the device count stays 5. -/
theorem loop_error_backoff_witness :
    (loopTick ⟨5, Machine.home⟩ 4 true).state.last_device_count = 5 ∧
    (loopTick ⟨5, Machine.home⟩ 4 true).event
      = some ((loopTick ⟨5, Machine.home⟩ 4 true).state.last_state) :=
  (loop_error_backoff ⟨5, Machine.home⟩ []).2.2.2.2 ⟨5, Machine.home⟩ 4 (by decide)

/-- C5 counterexample: an OS-query failure need not yield score 0 — when the
mouse-button metric succeeds with 3 and the keyboard-state query fails, the
sampler returns 3, not 0 (the inner bare `except: pass` swallows the
failure). -/
theorem sampler_counterexample : ¬ samplerReturnsZeroOnFailure := by
  intro h
  have h0 := h ⟨Except.ok 3, Except.error ()⟩ (Or.inr rfl)
  simp [count_input_devices] at h0

/-- C5 (amended): the sampler never propagates an exception to its caller;
when the mouse-button metric query fails it returns 0 (that failure is
logged); but when only the keyboard-state query fails, the failure is
silently swallowed and the sampler returns the mouse-button count unchanged
— possibly nonzero — rather than 0. -/
theorem sampler_never_raises (env : OsEnv) :
    (∃ n, count_input_devices env = Except.ok n) ∧
    (env.mouseButtons.isOk = false → count_input_devices env = Except.ok 0) ∧
    (∀ m, env.mouseButtons = Except.ok m → env.keyState.isOk = false →
      count_input_devices env = Except.ok m) := by
  obtain ⟨mb, ks⟩ := env
  cases mb with
  | error e =>
    refine ⟨⟨0, rfl⟩, fun _ => rfl, ?_⟩
    intro m hm
    cases hm
  | ok m =>
    cases ks with
    | error e =>
      refine ⟨⟨m, rfl⟩, ?_, ?_⟩
      · intro h
        simp [Except.isOk, Except.toBool] at h
      · intro m2 hm2 _
        cases hm2
        rfl
    | ok u =>
      refine ⟨⟨m + 2, rfl⟩, ?_, ?_⟩
      · intro h
        simp [Except.isOk, Except.toBool] at h
      · intro m2 hm2 hks
        simp [Except.isOk, Except.toBool] at hks

/-- Witness for C5 (amended): a failing mouse-button query yields 0, and a
mouse-button count of 3 with a failing keyboard-state query yields 3. -/
theorem sampler_never_raises_witness :
    count_input_devices ⟨Except.error (), Except.ok ()⟩ = Except.ok 0 ∧
    count_input_devices ⟨Except.ok 3, Except.error ()⟩ = Except.ok 3 :=
  ⟨(sampler_never_raises ⟨Except.error (), Except.ok ()⟩).2.1 rfl,
   (sampler_never_raises ⟨Except.ok 3, Except.error ()⟩).2.2 3 rfl rfl⟩

/-- Helper: `_init_monitor` never changes the configured monitor index. -/
theorem init_monitor_index (gm : Except Unit (List Monitor)) (s : ControllerState) :
    (init_monitor gm s).monitor_index = s.monitor_index := by
  cases gm with
  | error e => rfl
  | ok mons =>
    by_cases h : mons.isEmpty = false ∧ mons.length > s.monitor_index
    · simp [init_monitor, h]
    · simp only [init_monitor]
      rw [if_neg h]

/-- Helper: with no live handle, a call in an environment offering a healthy
monitor at the configured index succeeds. -/
theorem switch_input_success_of_env (mons : List Monitor) (t : ControllerState)
    (m : Monitor) (src : InputSource) (name : String)
    (ht : t.monitor = none)
    (hm : mons[t.monitor_index]? = some m)
    (hne : mons.isEmpty = false)
    (hlen : t.monitor_index < mons.length)
    (hlook : INPUT_SOURCES.lookup name = some src)
    (hok : m.set_input_source src = SetOutcome.ok) :
    (switch_input (Except.ok mons) t name).success = true := by
  unfold switch_input init_monitor
  rw [ht]
  simp [hne, hlen, hm, hlook, hok]

/-- C6: With no live handle, `switch_input` makes exactly one reconnect
attempt; when that reconnect fails the call returns `success = false`
without raising and leaves the handle absent; a subsequent call makes a
reconnect attempt again (it does not permanently give up), and succeeds as
soon as its environment offers a healthy monitor at the configured index
for a known input name. -/
theorem switch_input_reconnect (gm gm2 : Except Unit (List Monitor))
    (s : ControllerState) (name : String)
    (hnone : s.monitor = none)
    (hfail : (init_monitor gm s).monitor = none) :
    (switch_input gm s name).reconnect_attempts = 1 ∧
    (switch_input gm s name).success = false ∧
    (switch_input gm s name).state.monitor = none ∧
    (switch_input gm2 (switch_input gm s name).state name).reconnect_attempts = 1 ∧
    (∀ (mons : List Monitor) (m : Monitor) (src : InputSource),
      mons[s.monitor_index]? = some m →
      mons.isEmpty = false →
      s.monitor_index < mons.length →
      INPUT_SOURCES.lookup name = some src →
      m.set_input_source src = SetOutcome.ok →
      (switch_input (Except.ok mons) (switch_input gm s name).state name).success
        = true) := by
  have hsw : switch_input gm s name = ⟨false, none, 1, init_monitor gm s⟩ := by
    unfold switch_input
    simp [hnone, hfail]
  have hidx : (init_monitor gm s).monitor_index = s.monitor_index :=
    init_monitor_index gm s
  refine ⟨by rw [hsw], by rw [hsw], by rw [hsw]; exact hfail, ?_, ?_⟩
  · rw [hsw]
    show (switch_input gm2 (init_monitor gm s) name).reconnect_attempts = 1
    unfold switch_input
    simp [hfail]
  · intro mons m src hm hne hlen hlook hok
    rw [hsw]
    show (switch_input (Except.ok mons) (init_monitor gm s) name).success = true
    exact switch_input_success_of_env mons (init_monitor gm s) m src name hfail
      (by rwa [hidx]) hne (by rwa [hidx]) hlook hok

/-- Witness for C6: with no handle and a failing `get_monitors`, the call
returns `False` after exactly one reconnect attempt. -/
theorem switch_input_reconnect_witness :
    (switch_input (Except.error ()) ⟨0, none⟩ "HDMI-1").success = false ∧
    (switch_input (Except.error ()) ⟨0, none⟩ "HDMI-1").reconnect_attempts = 1 :=
  ⟨(switch_input_reconnect (Except.error ()) (Except.error ()) ⟨0, none⟩ "HDMI-1"
      rfl rfl).2.1,
   (switch_input_reconnect (Except.error ()) (Except.error ()) ⟨0, none⟩ "HDMI-1"
      rfl rfl).1⟩

/-- C7: With a healthy handle that accepts the resolved set-input command,
two consecutive `switch_input` calls with the same input name both return
`True`; the repeated call does not error merely because the monitor is
already on that input. -/
theorem switch_input_idempotent (gm : Except Unit (List Monitor))
    (s : ControllerState) (mon : Monitor) (name : String) (src : InputSource)
    (hm : s.monitor = some mon)
    (hlook : INPUT_SOURCES.lookup name = some src)
    (hok : mon.set_input_source src = SetOutcome.ok) :
    (switch_input gm s name).success = true ∧
    (switch_input gm (switch_input gm s name).state name).success = true := by
  have hsw : switch_input gm s name = ⟨true, some src, 0, s⟩ := by
    unfold switch_input
    simp [hm, hlook, hok]
  refine ⟨by rw [hsw], ?_⟩
  rw [hsw]
  show (switch_input gm s name).success = true
  rw [hsw]

/-- Witness for C7: two consecutive calls for `"HDMI-1"` against an
always-accepting monitor both succeed. -/
theorem switch_input_idempotent_witness :
    (switch_input (Except.error ()) ⟨0, some okMonitor⟩ "HDMI-1").success = true ∧
    (switch_input (Except.error ())
      (switch_input (Except.error ()) ⟨0, some okMonitor⟩ "HDMI-1").state
      "HDMI-1").success = true :=
  switch_input_idempotent (Except.error ()) ⟨0, some okMonitor⟩ okMonitor "HDMI-1"
    InputSource.HDMI1 rfl rfl rfl

/-- C8: With a live handle, every failure is converted into `False` rather
than an exception: an unknown input name yields `False` (and no command is
issued), a `VCPError` and a generic error from the set-input command both
yield `False`; on success the call returns `True` and the command issued
carries the input source the name resolved to. -/
theorem switch_input_outcomes (gm : Except Unit (List Monitor))
    (s : ControllerState) (mon : Monitor) (name : String)
    (hm : s.monitor = some mon) :
    (INPUT_SOURCES.lookup name = none →
      (switch_input gm s name).success = false ∧
      (switch_input gm s name).issued = none) ∧
    (∀ src, INPUT_SOURCES.lookup name = some src →
      (mon.set_input_source src = SetOutcome.vcpError →
        (switch_input gm s name).success = false) ∧
      (mon.set_input_source src = SetOutcome.genericError →
        (switch_input gm s name).success = false) ∧
      (mon.set_input_source src = SetOutcome.ok →
        (switch_input gm s name).success = true ∧
        (switch_input gm s name).issued = some src)) := by
  constructor
  · intro hlook
    constructor <;> simp [switch_input, hm, hlook]
  · intro src hlook
    refine ⟨fun hv => ?_, fun hg => ?_, fun ho => ?_⟩
    · simp [switch_input, hm, hlook, hv]
    · simp [switch_input, hm, hlook, hg]
    · constructor <;> simp [switch_input, hm, hlook, ho]

/-- Witness for C8: an unknown name fails, a `VCPError` fails, and a
successful call issues the resolved source for `"HDMI-1"`. -/
theorem switch_input_outcomes_witness :
    (switch_input (Except.error ()) ⟨0, some vcpMonitor⟩ "Composite-1").success
      = false ∧
    (switch_input (Except.error ()) ⟨0, some vcpMonitor⟩ "HDMI-1").success
      = false ∧
    (switch_input (Except.error ()) ⟨0, some okMonitor⟩ "HDMI-1").issued
      = some InputSource.HDMI1 :=
  ⟨((switch_input_outcomes (Except.error ()) ⟨0, some vcpMonitor⟩ vcpMonitor
      "Composite-1" rfl).1 rfl).1,
   ((switch_input_outcomes (Except.error ()) ⟨0, some vcpMonitor⟩ vcpMonitor
      "HDMI-1" rfl).2 InputSource.HDMI1 rfl).1 rfl,
   (((switch_input_outcomes (Except.error ()) ⟨0, some okMonitor⟩ okMonitor
      "HDMI-1" rfl).2 InputSource.HDMI1 rfl).2.2 rfl).2⟩

/-- C10: `_on_km_switch` persists `last_active_machine` only on a successful
switch: when the switch attempt fails the configuration is left exactly
unchanged, and when it succeeds the only write is
`last_active_machine := machine`. -/
theorem on_km_switch_config_writes (gm : Except Unit (List Monitor))
    (app : AppState) (machine : Machine) :
    ((switch_input gm app.controller (resolvedInputName app.config machine)).success
        = false →
      (on_km_switch gm app machine).1.config = app.config) ∧
    ((switch_input gm app.controller (resolvedInputName app.config machine)).success
        = true →
      (on_km_switch gm app machine).1.config =
        app.config.set "last_active_machine" machine.toStr) := by
  constructor <;> intro h <;> simp [on_km_switch, h]

/-- Witness for C10: with no handle and a failing reconnect, the switch
fails and the empty configuration stays empty. -/
theorem on_km_switch_config_writes_witness :
    (on_km_switch (Except.error ()) ⟨⟨[]⟩, ⟨0, none⟩⟩ Machine.home).1.config
      = ⟨[]⟩ :=
  (on_km_switch_config_writes (Except.error ()) ⟨⟨[]⟩, ⟨0, none⟩⟩ Machine.home).1 rfl

end MonitorSwitcher
